import Mathlib

set_option maxRecDepth 8192

/-!
Verification development for the AMIS (Agricultural Market Information System)
scraper.  The repository consists of two Python files, each defining an
`AMISScraper` class together with a sweep entry point `run_all`:

* `scrap_data.py` — the class whose `run_all` (lines 882-972) resumes by
  positioning loop indices from the progress record (guarded `.index()`
  lookups) but performs no completed-set check;
* the unnamed file (`enhanced-amis-scraper (1).py`) — whose module-level
  `run_all` (lines 320-446) resumes with unguarded `.index()` lookups and
  skips every cell whose (county, market, product) triple appears in the
  `completed` list, gates saving on `_verify_data_completeness`, and retries
  failed cells.

Pure functions of the source (`_optimize_entries`, `_verify_data_completeness`,
`_validate_dates`, the ragged-row adjustment in `scrape_table`, the calendar
navigation loop, the sweep iteration order) are embedded below as executable
Lean definitions; browser interactions are abstracted as oracles recording
which UI actions were attempted.
-/

/-- One (county, market, product) combination — a unit of work of the sweep. -/
structure Cell where
  county : String
  market : String
  product : String
deriving DecidableEq, Repr

/-- One entry of the `completed` list of the progress record
(`_save_progress` appends `{'county', 'market', 'product', 'timestamp'}`). -/
structure CompletedEntry where
  county : String
  market : String
  product : String
  timestamp : String
deriving DecidableEq, Repr

/-- The progress record as produced by `_load_progress` / `_save_progress`:
`{'last_county', 'last_market', 'last_product', 'completed', 'timestamp'}`. -/
structure Progress where
  last_county : Option String
  last_market : Option String
  last_product : Option String
  completed : List CompletedEntry
  timestamp : Option String
deriving Repr

/-- Python truthiness of `self.progress['last_county']` in
`if resume and self.progress['last_county']:` — `None` and the empty string
are falsy. -/
def truthyStr : Option String → Bool
  | none => false
  | some s => s != ""

/-- The completed-set membership test of the unnamed file's `run_all`
(lines 361-365): `any(c['county'] == county and c['market'] == market and
c['product'] == product for c in self.progress['completed'])`. -/
def tripleCompleted (county market product : String) (completed : List CompletedEntry) : Bool :=
  completed.any fun e => e.county == county && e.market == market && e.product == product

/-- The index of the first occurrence of `s` in `l`, `none` when absent —
the semantics of Python `lst.index(s)` with `ValueError` as `none`. -/
def listIndex (l : List String) (s : String) : Option Nat :=
  match l with
  | [] => none
  | a :: t => if a == s then some 0 else (listIndex t s).map (· + 1)

/-- `lst.index(x)` on an optional value: returns the index, or `none` when the
lookup would raise `ValueError` (value absent from the list, or the value is
Python `None`, which is never an element of a list of strings). -/
def idxStrict (l : List String) : Option String → Option Nat
  | none => none
  | some s => listIndex l s

/-- `lst.index(x) if x in lst else 0`, as used by `scrap_data.py`'s `run_all`
(lines 906-914); with `x = None` the membership test is false, giving 0. -/
def idxLenient (l : List String) : Option String → Nat
  | none => 0
  | some s => if l.contains s then (listIndex l s).getD 0 else 0

/-- A data frame: the column header read from the live table and the body
rows; a `none` cell is a null value. -/
structure DataFrame where
  columns : List String
  rows : List (List (Option String))
deriving DecidableEq, Repr

/-- `entry_options = [10, 50, 100, 1000, 1500, 3000]` (`__init__`, both files). -/
def entry_options : List Nat := [10, 50, 100, 1000, 1500, 3000]

/-- `_optimize_entries` (scrap_data.py lines 190-198, unnamed file lines
174-182): `if not total_entries: return entry_options[0]`; then the first
element of `reversed(entry_options)` that is `<= total_entries`; else
`entry_options[0]`.  `total_entries = none` models Python `None`. -/
def optimize_entries (total_entries : Option Nat) : Nat :=
  match total_entries with
  | none => entry_options.headD 0
  | some 0 => entry_options.headD 0
  | some t =>
    match entry_options.reverse.find? (fun e => e ≤ t) with
    | some e => e
    | none => entry_options.headD 0

/-- `_verify_data_completeness` (scrap_data.py lines 200-213, unnamed file
lines 184-197): false when `df is None or df.empty`; false when
`len(df) < expected_count`; true otherwise.  Pandas `df.empty` is true when
any axis has length 0 — a frame with rows but no columns (as produced by
`dropna(axis=1, how='all')` when every column is null) is also empty. -/
def verify_data_completeness (df : Option DataFrame) (expected_count : Nat) : Bool :=
  match df with
  | none => false
  | some d =>
    if d.rows.isEmpty || d.columns.isEmpty then false
    else if d.rows.length < expected_count then false
    else true

/-- Terminal outcome of one cell of the sweep in the unnamed file's `run_all`:
saved (verified and persisted), skipped because `_get_total_entries` reported
no entries, or failed after exhausting `MAX_RETRIES`. -/
inductive CellOutcome where
  | saved
  | skippedNoEntries
  | failed
deriving DecidableEq, Repr

/-- The observable result of one attempt of the per-cell retry loop of the
unnamed file's `run_all` (lines 368-425): whether the first `set_filters`
succeeded, the total reported by `_get_total_entries` (Python falsy values
`None`/`0` modelled as `none`/`some 0`), whether the second `set_filters`
(with optimized entries) succeeded, and the frame returned by `scrape_table`. -/
structure AttemptEnv where
  filtersOk : Bool
  total : Option Nat
  filtersOk2 : Bool
  df : Option DataFrame

/-- The per-cell retry loop of the unnamed file's `run_all` (lines 368-425),
with `fuel = MAX_RETRIES - retry_count`.  A failed `set_filters` raises and is
caught by the per-attempt handler, consuming one attempt; a falsy total breaks
out of the loop without saving; a frame failing `_verify_data_completeness`
consumes one attempt; a verified frame is saved. -/
def cellRunAux (envs : Nat → AttemptEnv) (attempt : Nat) : Nat → CellOutcome
  | 0 => CellOutcome.failed
  | fuel + 1 =>
    let e := envs attempt
    if e.filtersOk = false then cellRunAux envs (attempt + 1) fuel
    else
      match e.total with
      | none => CellOutcome.skippedNoEntries
      | some 0 => CellOutcome.skippedNoEntries
      | some t =>
        if e.filtersOk2 = false then cellRunAux envs (attempt + 1) fuel
        else if verify_data_completeness e.df t then CellOutcome.saved
        else cellRunAux envs (attempt + 1) fuel

/-- One cell of the unnamed file's `run_all`, `MAX_RETRIES = 3`. -/
def cellRun (envs : Nat → AttemptEnv) : CellOutcome :=
  cellRunAux envs 0 3

/-- A frame with one column and `n` non-null single-cell rows. -/
def mkDF (n : Nat) : DataFrame :=
  ⟨["v"], List.replicate n [some "x"]⟩

/-- C2: `_verify_data_completeness(df, expected)` returns true iff `df` is
non-null, non-empty (pandas `df.empty`: no axis of length 0, so both rows and
columns must be non-empty), and `len(df) >= expected`; in the per-cell loop
of the unnamed file's `run_all`, 480 extracted rows against a reported total
of 500 make the cell failed (after retries), while 500 rows make it saved. -/
theorem verify_completeness_gate :
    (∀ (df : Option DataFrame) (expected : Nat),
      verify_data_completeness df expected = true ↔
        ∃ d, df = some d ∧ d.rows ≠ [] ∧ d.columns ≠ [] ∧ expected ≤ d.rows.length)
    ∧ cellRun (fun _ => ⟨true, some 500, true, some (mkDF 480)⟩) = CellOutcome.failed
    ∧ cellRun (fun _ => ⟨true, some 500, true, some (mkDF 500)⟩) = CellOutcome.saved := by
  refine ⟨fun df expected => ?_, by decide, by decide⟩
  constructor
  · intro h
    match df with
    | none => simp [verify_data_completeness] at h
    | some d =>
      by_cases hempty : (d.rows.isEmpty || d.columns.isEmpty) = true
      · simp [verify_data_completeness, hempty] at h
      · by_cases hlen : d.rows.length < expected
        · simp [verify_data_completeness, hempty, hlen] at h
        · have hr : d.rows ≠ [] := by
            intro hnil
            exact hempty (by simp [hnil])
          have hc : d.columns ≠ [] := by
            intro hnil
            exact hempty (by simp [hnil])
          exact ⟨d, rfl, hr, hc, by omega⟩
  · rintro ⟨d, rfl, hr, hc, hlen⟩
    simp only [verify_data_completeness]
    rw [if_neg (by simp [List.isEmpty_iff, hr, hc]), if_neg (by omega)]

/-- Closed form of `_optimize_entries` on a positive total: the descending
walk through `reversed(entry_options)` stops at the first option `≤ n`. -/
lemma optimize_entries_pos (n : Nat) (hpos : 0 < n) :
    optimize_entries (some n) =
      if 3000 ≤ n then 3000 else if 1500 ≤ n then 1500 else if 1000 ≤ n then 1000
      else if 100 ≤ n then 100 else if 50 ≤ n then 50 else 10 := by
  cases n with
  | zero => exact absurd hpos (by omega)
  | succ m =>
    have hrev : entry_options.reverse = [3000, 1500, 1000, 100, 50, 10] := by rfl
    simp only [optimize_entries, hrev]
    by_cases h1 : 3000 ≤ m + 1
    · simp [List.find?, h1]
    · by_cases h2 : 1500 ≤ m + 1
      · simp [List.find?, h1, h2]
      · by_cases h3 : 1000 ≤ m + 1
        · simp [List.find?, h1, h2, h3]
        · by_cases h4 : 100 ≤ m + 1
          · simp [List.find?, h1, h2, h3, h4]
          · by_cases h5 : 50 ≤ m + 1
            · simp [List.find?, h1, h2, h3, h4, h5]
            · by_cases h6 : 10 ≤ m + 1
              · simp [List.find?, h1, h2, h3, h4, h5, h6]
              · simp [List.find?, entry_options, h1, h2, h3, h4, h5, h6]

/-- C5: for a known positive total `n`, `_optimize_entries` returns the
largest element of `entry_options` that is `≤ n` when one exists, and the
smallest option 10 when none qualifies; an unknown total (`None` or 0) also
yields 10. -/
theorem optimize_entries_largest_le (n : Nat) (hpos : 0 < n) :
    ((∃ e ∈ entry_options, e ≤ n) →
        optimize_entries (some n) ∈ entry_options ∧
        optimize_entries (some n) ≤ n ∧
        ∀ e ∈ entry_options, e ≤ n → e ≤ optimize_entries (some n))
    ∧ ((∀ e ∈ entry_options, n < e) → optimize_entries (some n) = 10)
    ∧ optimize_entries none = 10 ∧ optimize_entries (some 0) = 10 := by
  refine ⟨?_, ?_, rfl, rfl⟩
  · intro hex
    rw [optimize_entries_pos n hpos]
    by_cases h6 : 10 ≤ n
    · split_ifs with h1 h2 h3 h4 h5 <;>
        (refine ⟨by decide, by omega, ?_⟩; intro e he hle; fin_cases he <;> omega)
    · obtain ⟨e, he, hle⟩ := hex
      fin_cases he <;> omega
  · intro hall
    have ha := hall 10 (by decide)
    have hb := hall 50 (by decide)
    have hc := hall 100 (by decide)
    have hd := hall 1000 (by decide)
    have he := hall 1500 (by decide)
    have hf := hall 3000 (by decide)
    rw [optimize_entries_pos n hpos]
    split_ifs <;> omega

/-- Witness for C5 at the concrete total 600: 100 is the largest option
`≤ 600`, and the defaults are 10. -/
theorem optimize_entries_largest_le_witness :
    ((∃ e ∈ entry_options, e ≤ 600) →
        optimize_entries (some 600) ∈ entry_options ∧
        optimize_entries (some 600) ≤ 600 ∧
        ∀ e ∈ entry_options, e ≤ 600 → e ≤ optimize_entries (some 600))
    ∧ ((∀ e ∈ entry_options, 600 < e) → optimize_entries (some 600) = 10)
    ∧ optimize_entries none = 10 ∧ optimize_entries (some 0) = 10 :=
  optimize_entries_largest_le 600 (by decide)

/-- Result of a run of `run_all`: the cells for which scraping was attempted,
in order, and whether the sweep aborted through the sweep-level exception
handler (in Python, `run_all` then returns `None`). -/
structure SweepOutcome where
  visited : List Cell
  aborted : Bool
deriving DecidableEq, Repr

/-- Inner product loop of the unnamed file's `run_all` (lines 358-427):
iterate `products[sp:]`, skipping every cell whose (county, market, product)
triple appears in `completed` (lines 361-366); a visited cell is one that
reaches the per-cell retry loop. -/
def p0ProductLoop (county market : String) (products : List String) (sp : Nat)
    (completed : List CompletedEntry) : List Cell :=
  ((products.drop sp).filter
      fun p => !(tripleCompleted county market p completed)).map
    fun p => ⟨county, market, p⟩

/-- Market loop of the unnamed file's `run_all` for one county: the first
iterated market uses the incoming product start index, and
`start_idx['product'] = 0` runs after each market's product loop (line 430),
so later markets start at 0.  Returns the visited cells together with the
product start index left behind for the next county (unchanged when no market
was iterated, because the reset statement sits inside the market loop body). -/
def p0MarketsFold (county : String) (products : List String)
    (completed : List CompletedEntry) : List String → Nat → List Cell × Nat
  | [], sp => ([], sp)
  | m :: rest, sp =>
    let cells := p0ProductLoop county m products sp completed
    let next := p0MarketsFold county products completed rest 0
    (cells ++ next.1, next.2)

/-- County loop of the unnamed file's `run_all` (lines 352-433): the first
county iterates `markets[sm:]`, and `start_idx['market'] = 0` runs after each
county's market loop (line 433), so later counties start at market 0. -/
def p0CountiesFold (markets products : List String)
    (completed : List CompletedEntry) : List String → Nat → Nat → List Cell
  | [], _, _ => []
  | c :: cs, sm, sp =>
    let step := p0MarketsFold c products completed (markets.drop sm) sp
    step.1 ++ p0CountiesFold markets products completed cs 0 step.2

/-- `run_all` of the unnamed file (lines 320-446).  With `resume` and a truthy
`last_county`, the start indices come from unguarded `counties.index(...)`,
`markets.index(...)`, `products.index(...)` (lines 343-348): a failed lookup
raises `ValueError`, which only the sweep-level handler (lines 435-437)
catches, returning `None` — modelled as `aborted = true` with no visited
cells.  The completed-triple skip applies inside the loops unconditionally.
`start_date`/`end_date` play no role in the choice of visited cells. -/
def run_all_part0 (counties products markets : List String)
    (start_date end_date : String) (progress : Progress) (resume : Bool) : SweepOutcome :=
  if resume && truthyStr progress.last_county then
    match idxStrict counties progress.last_county,
        idxStrict markets progress.last_market,
        idxStrict products progress.last_product with
    | some sc, some sm, some sp =>
      ⟨p0CountiesFold markets products progress.completed (counties.drop sc) sm sp, false⟩
    | _, _, _ => ⟨[], true⟩
  else
    ⟨p0CountiesFold markets products progress.completed counties 0 0, false⟩

/-- Market loop of `scrap_data.py`'s `run_all` for one county: every cell of
`products[sp:]` is visited (there is no completed-set check);
`start_index['products'] = 0` runs inside the product loop body (line 953), so
the product start index resets only when that body ran at least once. -/
def sdMarketsFold (county : String) (products : List String) :
    List String → Nat → List Cell × Nat
  | [], sp => ([], sp)
  | m :: rest, sp =>
    let ps := products.drop sp
    let cells := ps.map fun p => (⟨county, m, p⟩ : Cell)
    let sp2 := if ps.isEmpty then sp else 0
    let next := sdMarketsFold county products rest sp2
    (cells ++ next.1, next.2)

/-- County loop of `scrap_data.py`'s `run_all`: `start_index['markets'] = 0`
runs inside the market loop body (line 956), so it resets only when at least
one market was iterated for the county. -/
def sdCountiesFold (markets products : List String) :
    List String → Nat → Nat → List Cell
  | [], _, _ => []
  | c :: cs, sm, sp =>
    let ms := markets.drop sm
    let step := sdMarketsFold c products ms sp
    let sm2 := if ms.isEmpty then sm else 0
    step.1 ++ sdCountiesFold markets products cs sm2 step.2

/-- `run_all` of `scrap_data.py` (lines 882-972): the resume start indices
come from the guarded lookups `counties.index(x) if x in counties else 0`
(lines 906-914); there is no completed-set check, so every iterated cell is
visited regardless of the progress record's `completed` list. -/
def run_all_scrap (counties products markets : List String)
    (start_date end_date : String) (progress : Progress) (resume : Bool) : List Cell :=
  if resume && truthyStr progress.last_county then
    sdCountiesFold markets products
      (counties.drop (idxLenient counties progress.last_county))
      (idxLenient markets progress.last_market)
      (idxLenient products progress.last_product)
  else
    sdCountiesFold markets products counties 0 0

/-- The full cartesian product counties × markets × products in sweep order
(counties outer, markets middle, products inner). -/
def cartesianCells (counties markets products : List String) : List Cell :=
  counties.flatMap fun c => markets.flatMap fun m => products.map fun p => ⟨c, m, p⟩

lemma mem_p0ProductLoop {cell : Cell} {county market : String} {products : List String}
    {sp : Nat} {completed : List CompletedEntry}
    (h : cell ∈ p0ProductLoop county market products sp completed) :
    tripleCompleted cell.county cell.market cell.product completed = false := by
  simp only [p0ProductLoop, List.mem_map, List.mem_filter] at h
  obtain ⟨p, ⟨hp, hskip⟩, rfl⟩ := h
  simpa using hskip

lemma mem_p0MarketsFold {cell : Cell} {county : String} {products : List String}
    {completed : List CompletedEntry} :
    ∀ {ms : List String} {sp : Nat},
      cell ∈ (p0MarketsFold county products completed ms sp).1 →
      tripleCompleted cell.county cell.market cell.product completed = false
  | [], sp, h => by simp [p0MarketsFold] at h
  | m :: rest, sp, h => by
    simp only [p0MarketsFold, List.mem_append] at h
    rcases h with h | h
    · exact mem_p0ProductLoop h
    · exact mem_p0MarketsFold h

lemma mem_p0CountiesFold {cell : Cell} {markets products : List String}
    {completed : List CompletedEntry} :
    ∀ {cs : List String} {sm sp : Nat},
      cell ∈ p0CountiesFold markets products completed cs sm sp →
      tripleCompleted cell.county cell.market cell.product completed = false
  | [], _, _, h => by simp [p0CountiesFold] at h
  | c :: cs, sm, sp, h => by
    simp only [p0CountiesFold, List.mem_append] at h
    rcases h with h | h
    · exact mem_p0MarketsFold h
    · exact mem_p0CountiesFold h

/-- C1 (amended): the unnamed file's `run_all` with `resume=true` and a
non-empty `completed` list never visits a cell whose (county, market, product)
triple appears in `completed`, for any date range.  (The original claim also
covers `scrap_data.py`'s `run_all`, which violates it: see
`run_all_scrap_revisits_completed`.) -/
theorem run_all_part0_skips_completed
    (counties products markets : List String) (start_date end_date : String)
    (progress : Progress) (cell : Cell)
    (hne : progress.completed ≠ [])
    (hc : tripleCompleted cell.county cell.market cell.product progress.completed = true) :
    cell ∉ (run_all_part0 counties products markets start_date end_date progress true).visited := by
  intro hmem
  simp only [run_all_part0] at hmem
  split at hmem
  · split at hmem
    · exact absurd (mem_p0CountiesFold hmem) (by simp [hc])
    · simp at hmem
  · exact absurd (mem_p0CountiesFold hmem) (by simp [hc])

/-- Witness for C1's theorem at a concrete run: the completed cell (A, X, P)
is not visited when resuming. -/
theorem run_all_part0_skips_completed_witness :
    (⟨"A", "X", "P"⟩ : Cell) ∉ (run_all_part0 ["A", "B"] ["P"] ["X"] "2023-01-01" "2023-12-31"
      ⟨some "A", some "X", some "P", [⟨"A", "X", "P", "t0"⟩], some "t0"⟩ true).visited :=
  run_all_part0_skips_completed _ _ _ _ _ _ _ (by decide) (by decide)

/-- C1 (counterexample): `scrap_data.py`'s `run_all` with `resume=true`
re-visits the already-completed cell (A, X, P): its resume logic only
positions the loop indices at the last-recorded values and never consults
`completed`. -/
theorem run_all_scrap_revisits_completed :
    run_all_scrap ["A"] ["P"] ["X"] "2023-01-01" "2023-12-31"
        ⟨some "A", some "X", some "P", [⟨"A", "X", "P", "t0"⟩], some "t0"⟩ true =
      [⟨"A", "X", "P"⟩]
    ∧ tripleCompleted "A" "X" "P" [⟨"A", "X", "P", "t0"⟩] = true := by
  exact ⟨by decide, by decide⟩

/-- C3 (amended): odometer traversal of the unnamed file's `run_all`.  With
counties=[A,B], markets=[X,Y], products=[P,Q] and last recorded cell (A,Y,P)
(present in `completed`), resume continues at (A,Y,Q), then visits (B,X,P),
(B,X,Q), (B,Y,P), (B,Y,Q) in that order; (A,X,*) and (A,Y,P) are never
visited, and deeper loop indices reset to 0 after the first resumed pass.
(The original claim also covers `scrap_data.py`'s `run_all`, which re-visits
(A,Y,P): see `run_all_scrap_resume_revisits_last`.) -/
theorem run_all_part0_odometer :
    run_all_part0 ["A", "B"] ["P", "Q"] ["X", "Y"] "2023-01-01" "2023-12-31"
        ⟨some "A", some "Y", some "P", [⟨"A", "Y", "P", "t0"⟩], some "t0"⟩ true =
      ⟨[⟨"A", "Y", "Q"⟩, ⟨"B", "X", "P"⟩, ⟨"B", "X", "Q"⟩, ⟨"B", "Y", "P"⟩, ⟨"B", "Y", "Q"⟩],
        false⟩ := by
  decide

/-- C3 (counterexample): in the same scenario `scrap_data.py`'s `run_all`
starts again at (A,Y,P) — the cell recorded as last completed — instead of
continuing at (A,Y,Q). -/
theorem run_all_scrap_resume_revisits_last :
    run_all_scrap ["A", "B"] ["P", "Q"] ["X", "Y"] "2023-01-01" "2023-12-31"
        ⟨some "A", some "Y", some "P", [⟨"A", "Y", "P", "t0"⟩], some "t0"⟩ true =
      [⟨"A", "Y", "P"⟩, ⟨"A", "Y", "Q"⟩, ⟨"B", "X", "P"⟩, ⟨"B", "X", "Q"⟩, ⟨"B", "Y", "P"⟩,
        ⟨"B", "Y", "Q"⟩]
    ∧ (⟨"A", "Y", "P"⟩ : Cell) ∈ run_all_scrap ["A", "B"] ["P", "Q"] ["X", "Y"]
        "2023-01-01" "2023-12-31"
        ⟨some "A", some "Y", some "P", [⟨"A", "Y", "P", "t0"⟩], some "t0"⟩ true := by
  exact ⟨by decide, by decide⟩

lemma sdMarketsFold_zero (county : String) (products : List String) :
    ∀ ms : List String,
      sdMarketsFold county products ms 0 =
        (ms.flatMap fun m => products.map fun p => (⟨county, m, p⟩ : Cell), 0)
  | [] => rfl
  | m :: rest => by
    simp only [sdMarketsFold, List.drop_zero, ite_self,
      sdMarketsFold_zero county products rest, List.flatMap_cons]

lemma sdCountiesFold_zero (markets products : List String) :
    ∀ cs : List String,
      sdCountiesFold markets products cs 0 0 = cartesianCells cs markets products
  | [] => rfl
  | c :: cs => by
    simp only [sdCountiesFold, List.drop_zero, sdMarketsFold_zero, ite_self,
      sdCountiesFold_zero markets products cs, cartesianCells, List.flatMap_cons]

/-- C4 (amended): `scrap_data.py`'s `run_all` with `resume=false` visits the
full cartesian product counties × markets × products in sweep order,
regardless of the loaded progress record.  (The original claim also covers
the unnamed file's `run_all`, whose completed-triple skip is unconditional
and fires even with `resume=false`: see
`run_all_part0_skips_despite_no_resume`.) -/
theorem run_all_scrap_full_product (counties products markets : List String)
    (start_date end_date : String) (progress : Progress) :
    run_all_scrap counties products markets start_date end_date progress false =
      cartesianCells counties markets products := by
  show sdCountiesFold markets products counties 0 0 = _
  exact sdCountiesFold_zero markets products counties

/-- C4 (counterexample): the unnamed file's `run_all` with `resume=false`
still skips the cell (A, X, P) recorded in the loaded `completed` list, so the
sweep attempts nothing even though the full cartesian product is the single
cell (A, X, P). -/
theorem run_all_part0_skips_despite_no_resume :
    run_all_part0 ["A"] ["P"] ["X"] "2023-01-01" "2023-12-31"
        ⟨some "A", some "X", some "P", [⟨"A", "X", "P", "t0"⟩], some "t0"⟩ false =
      ⟨[], false⟩
    ∧ cartesianCells ["A"] ["X"] ["P"] = [⟨"A", "X", "P"⟩] := by
  exact ⟨by decide, by decide⟩

lemma listIndex_eq_none_of_not_mem {s : String} {l : List String} (h : s ∉ l) :
    listIndex l s = none := by
  induction l with
  | nil => rfl
  | cons a t ih =>
    simp only [List.mem_cons, not_or] at h
    simp only [listIndex, ih h.2, Option.map_none']
    rw [if_neg]
    simp [beq_iff_eq]
    exact fun hs => h.1 hs.symm

/-- C10: with `resume=true`, a truthy `last_county`, and any of the three
last-recorded values absent from its input list (for `last_market` /
`last_product` this includes the value `None`), the unnamed file's `run_all`
raises `ValueError` in the unguarded `.index()` lookup; only the sweep-level
handler catches it, so the run returns `None` without visiting any cell. -/
theorem run_all_part0_resume_index_error
    (counties products markets : List String) (start_date end_date : String)
    (progress : Progress)
    (htruthy : truthyStr progress.last_county = true)
    (hmiss :
      (∀ s, progress.last_county = some s → s ∉ counties) ∨
      (∀ s, progress.last_market = some s → s ∉ markets) ∨
      (∀ s, progress.last_product = some s → s ∉ products)) :
    run_all_part0 counties products markets start_date end_date progress true = ⟨[], true⟩ := by
  have idx_none : ∀ (l : List String) (o : Option String),
      (∀ s, o = some s → s ∉ l) → idxStrict l o = none := by
    intro l o ho
    match o with
    | none => rfl
    | some s => exact listIndex_eq_none_of_not_mem (ho s rfl)
  simp only [run_all_part0, htruthy, Bool.and_true, if_pos]
  rcases hmiss with h | h | h
  · rw [idx_none counties _ h]
  · rw [idx_none markets _ h]
    cases idxStrict counties progress.last_county <;> rfl
  · rw [idx_none products _ h]
    cases idxStrict counties progress.last_county <;>
      cases idxStrict markets progress.last_market <;> rfl

/-- Witness for C10: a progress record whose `last_county` "Z" is not among
the counties makes the resumed run abort with no visited cells. -/
theorem run_all_part0_resume_index_error_witness :
    run_all_part0 ["A"] ["P"] ["X"] "2023-01-01" "2023-12-31"
        ⟨some "Z", some "X", some "P", [], some "t0"⟩ true = ⟨[], true⟩ :=
  run_all_part0_resume_index_error _ _ _ _ _ _ (by decide)
    (Or.inl (by intro s hs; cases hs; decide))

/-- Python `str.strip()`: drop leading and trailing whitespace. -/
def stripStr (s : String) : String :=
  String.mk (((s.toList.dropWhile Char.isWhitespace).reverse.dropWhile
    Char.isWhitespace).reverse)

/-- `col.text.strip() or None` in the unnamed file's `scrape_table`
(line 785): a cell whose stripped text is empty becomes null. -/
def cellText (s : String) : Option String :=
  if stripStr s = "" then none else some (stripStr s)

/-- The ragged-row adjustment of the unnamed file's `scrape_table` (lines
787-793): when the cell count differs from the header count, append
`[None] * (len(headers) - len(cols_data))` (empty when the row is too long —
Python's negative list multiplier yields an empty list) and truncate with
`cols_data[:len(headers)]`. -/
def adjustRow (headers : List String) (cols_data : List (Option String)) :
    List (Option String) :=
  if cols_data.length ≠ headers.length then
    (cols_data ++ List.replicate (headers.length - cols_data.length) none).take headers.length
  else cols_data

/-- The `data` list built by the unnamed file's `scrape_table` (lines
783-796): one adjusted row per body row; no row is dropped and nothing
raises. -/
def scrapeRows (headers : List String) (rawRows : List (List String)) :
    List (List (Option String)) :=
  rawRows.map fun row => adjustRow headers (row.map cellText)

/-- `df.dropna(axis=1, how='all')` (line 805): keep exactly the columns
holding at least one non-null value. -/
def dropAllNullCols (df : DataFrame) : DataFrame :=
  let keep := (List.range df.columns.length).filter
    fun i => df.rows.any fun r => ((r.get? i).join).isSome
  ⟨keep.map fun i => (df.columns.get? i).getD "",
    df.rows.map fun r => keep.map fun i => (r.get? i).join⟩

/-- `scrape_table` of the unnamed file (lines 766-812): collect one adjusted
row per body row; `if not data: return None`; otherwise build the frame under
the scraped headers and drop all-null columns. -/
def scrape_table_part0 (headers : List String) (rawRows : List (List String)) :
    Option DataFrame :=
  let data := scrapeRows headers rawRows
  if data.isEmpty then none
  else some (dropAllNullCols ⟨headers, data⟩)

/-- Modelled from the pandas library (not repository code):
`pd.DataFrame(data, columns=...)` on a list of row lists infers the content
width as the maximum row length (shorter rows are padded with `NaN`) and
raises `ValueError: n columns passed, passed data had m columns` when the
passed column count differs from that width; empty data yields an empty
frame with the given columns. -/
def pdDataFrameOfRows (data : List (List (Option String))) (columns : List String) :
    Except String DataFrame :=
  match data with
  | [] => Except.ok ⟨columns, []⟩
  | _ =>
    let w := data.foldl (fun acc r => max acc r.length) 0
    if columns.length = w then
      Except.ok ⟨columns, data.map fun r => r ++ List.replicate (w - r.length) none⟩
    else Except.error "columns passed, passed data had a different width"

/-- `_extract_table_data` of `scrap_data.py` (lines 749-771): header and body
cell texts are collected verbatim — there is no padding or truncation — and
handed to `pd.DataFrame(data, columns=headers)`; any exception, including the
width-mismatch `ValueError`, is caught by the enclosing handler, which logs
and returns `None`. -/
def extract_table_data_scrap (headers : List String) (rawRows : List (List String)) :
    Option DataFrame :=
  let data := rawRows.map fun row => row.map fun s => some s
  match pdDataFrameOfRows data headers with
  | Except.ok df => some df
  | Except.error _ => none

/-- C6 (amended): in the unnamed file's `scrape_table`, every body row is
adjusted to exactly the header length — padded with nulls when short,
truncated when long — and kept, never dropped and never raising (the function
stays total and returns a frame whenever at least one row exists); a 3-cell
row under a 5-column header becomes a row of 5 values whose last 2 are null.
(The original claim also covers `scrap_data.py`'s `_extract_table_data`,
which performs no adjustment and loses the whole page on a ragged row: see
`extract_table_data_scrap_drops_page`.) -/
theorem scrape_table_part0_ragged_rows
    (headers : List String) (rawRows : List (List String)) (row : List String)
    (hrow : row ∈ rawRows) :
    adjustRow headers (row.map cellText) ∈ scrapeRows headers rawRows
    ∧ (adjustRow headers (row.map cellText)).length = headers.length
    ∧ (row.length ≤ headers.length →
        adjustRow headers (row.map cellText) =
          row.map cellText ++ List.replicate (headers.length - row.length) none)
    ∧ (headers.length ≤ row.length →
        adjustRow headers (row.map cellText) = (row.map cellText).take headers.length)
    ∧ (∃ df, scrape_table_part0 headers rawRows = some df)
    ∧ scrapeRows ["h1", "h2", "h3", "h4", "h5"] [["a", "b", "c"]] =
        [[some "a", some "b", some "c", none, none]] := by
  refine ⟨List.mem_map.mpr ⟨row, hrow, rfl⟩, ?_, ?_, ?_, ?_, by decide⟩
  · simp only [adjustRow, List.length_map]
    split_ifs with h
    · rw [List.length_take, List.length_append, List.length_replicate, List.length_map]
      omega
    · simpa using by omega
  · intro hle
    simp only [adjustRow, List.length_map]
    split_ifs with h
    · exact List.take_of_length_le (by simp; omega)
    · have : row.length = headers.length := by simpa using h
      rw [this, Nat.sub_self, List.replicate_zero, List.append_nil]
  · intro hge
    simp only [adjustRow, List.length_map]
    split_ifs with h
    · have : headers.length - row.length = 0 := by omega
      rw [this, List.replicate_zero, List.append_nil]
    · have : row.length = headers.length := by simpa using h
      rw [List.take_of_length_le (by simp [this])]
  · match rawRows, hrow with
    | r :: rs, _ => exact ⟨_, rfl⟩

/-- Witness for C6's theorem at the claim's own example: the 3-cell row
["a","b","c"] under 5 headers. -/
theorem scrape_table_part0_ragged_rows_witness :
    adjustRow ["h1", "h2", "h3", "h4", "h5"] (["a", "b", "c"].map cellText) ∈
        scrapeRows ["h1", "h2", "h3", "h4", "h5"] [["a", "b", "c"]]
    ∧ (adjustRow ["h1", "h2", "h3", "h4", "h5"] (["a", "b", "c"].map cellText)).length =
        (["h1", "h2", "h3", "h4", "h5"] : List String).length
    ∧ ((["a", "b", "c"] : List String).length ≤
          (["h1", "h2", "h3", "h4", "h5"] : List String).length →
        adjustRow ["h1", "h2", "h3", "h4", "h5"] (["a", "b", "c"].map cellText) =
          ["a", "b", "c"].map cellText ++
            List.replicate ((["h1", "h2", "h3", "h4", "h5"] : List String).length -
              (["a", "b", "c"] : List String).length) none)
    ∧ ((["h1", "h2", "h3", "h4", "h5"] : List String).length ≤
          (["a", "b", "c"] : List String).length →
        adjustRow ["h1", "h2", "h3", "h4", "h5"] (["a", "b", "c"].map cellText) =
          (["a", "b", "c"].map cellText).take
            (["h1", "h2", "h3", "h4", "h5"] : List String).length)
    ∧ (∃ df, scrape_table_part0 ["h1", "h2", "h3", "h4", "h5"] [["a", "b", "c"]] = some df)
    ∧ scrapeRows ["h1", "h2", "h3", "h4", "h5"] [["a", "b", "c"]] =
        [[some "a", some "b", some "c", none, none]] :=
  scrape_table_part0_ragged_rows ["h1", "h2", "h3", "h4", "h5"] [["a", "b", "c"]]
    ["a", "b", "c"] (by decide)

/-- C6 (counterexample): `scrap_data.py`'s `_extract_table_data` on a single
3-cell body row under a 5-column header returns `None` — the whole page,
including the ragged row, is dropped instead of the row being padded to
5 values. -/
theorem extract_table_data_scrap_drops_page :
    extract_table_data_scrap ["h1", "h2", "h3", "h4", "h5"] [["a", "b", "c"]] = none := by
  decide

/-- Gregorian leap-year test, as in Python `datetime`. -/
def isLeap (y : Nat) : Bool :=
  (y % 4 == 0 && y % 100 != 0) || y % 400 == 0

/-- Length of a month, as validated by Python `datetime`'s constructor. -/
def daysInMonth (y m : Nat) : Nat :=
  if m = 2 then (if isLeap y then 29 else 28)
  else if m = 4 ∨ m = 6 ∨ m = 9 ∨ m = 11 then 30
  else 31

/-- Split a character list at every occurrence of `c` (the semantics of
Python `str.split` with a single-character separator, and of
`String.split`). -/
def splitOnChar (c : Char) : List Char → List (List Char)
  | [] => [[]]
  | a :: t =>
    let r := splitOnChar c t
    if a = c then [] :: r
    else
      match r with
      | [] => [[a]]
      | h :: t2 => (a :: h) :: t2

/-- Modelled from the Python standard library (not repository code):
`datetime.strptime(s, "%Y-%m-%d")`.  CPython matches `%Y` against exactly
four digits, `%m` and `%d` against one or two digits (never "00"), requires
the whole string consumed, and the `datetime` constructor then validates
year ≥ 1, month 1-12 and day within the month's length.  A parse failure
raises `ValueError`, modelled as `none`. -/
def parseDateYMD (s : String) : Option (Nat × Nat × Nat) :=
  match splitOnChar '-' s.toList with
  | [yl, ml, dl] =>
    if yl.length = 4 ∧ yl.all Char.isDigit ∧
        1 ≤ ml.length ∧ ml.length ≤ 2 ∧ ml.all Char.isDigit ∧
        1 ≤ dl.length ∧ dl.length ≤ 2 ∧ dl.all Char.isDigit then
      let y := yl.foldl (fun n c => n * 10 + (c.toNat - '0'.toNat)) 0
      let m := ml.foldl (fun n c => n * 10 + (c.toNat - '0'.toNat)) 0
      let d := dl.foldl (fun n c => n * 10 + (c.toNat - '0'.toNat)) 0
      if 1 ≤ y ∧ 1 ≤ m ∧ m ≤ 12 ∧ 1 ≤ d ∧ d ≤ daysInMonth y m then
        some (y, m, d)
      else none
    else none
  | _ => none

/-- Strict `<` on (year, month, day) triples — the order `datetime` uses in
`end < start`. -/
def dateLt (a b : Nat × Nat × Nat) : Bool :=
  if a.1 ≠ b.1 then decide (a.1 < b.1)
  else if a.2.1 ≠ b.2.1 then decide (a.2.1 < b.2.1)
  else decide (a.2.2 < b.2.2)

/-- `_validate_dates` (scrap_data.py lines 650-661; identically
`DatePickerHandler._validate_dates`, unnamed file lines 460-471): both
strings must parse as `%Y-%m-%d`, and `end < start` is rejected. -/
def validate_dates (start_date end_date : String) : Bool :=
  match parseDateYMD start_date, parseDateYMD end_date with
  | some ds, some de => !(dateLt de ds)
  | _, _ => false

/-- Zero-pad to two digits, as `strftime("%m")` / `strftime("%d")`. -/
def pad2 (n : Nat) : String :=
  if n < 10 then "0" ++ toString n else toString n

/-- Zero-pad to four digits, as `strftime("%Y")` on the validated year range
1-9999. -/
def pad4 (n : Nat) : String :=
  if n < 10 then "000" ++ toString n
  else if n < 100 then "00" ++ toString n
  else if n < 1000 then "0" ++ toString n
  else toString n

/-- `target_date.strftime("%Y-%m-%d")`. -/
def formatYMD (y m d : Nat) : String :=
  pad4 y ++ "-" ++ pad2 m ++ "-" ++ pad2 d

/-- The month/year navigation loop of `navigate_to_target_date`
(scrap_data.py lines 434-477) and `DatePickerHandler._navigate_to_month_year`
(unnamed file lines 485-514), with `fuel = max_attempts - attempts` and
`max_attempts = 24`.  `caps t` is the caption read on attempt `t`: `none`
models an unreadable or unparsable caption (the exception is caught and the
attempt consumed); a shown month before the target clicks "next", after it
clicks "previous" (each consuming an attempt); a match exits; falling out of
the loop raises `ValueError`. -/
def navLoop (caps : Nat → Option (Nat × Nat)) (ty tm : Nat) :
    Nat → Nat → Except String Unit
  | _, 0 => Except.error "Exceeded maximum attempts to navigate to target date"
  | attempts, fuel + 1 =>
    match caps attempts with
    | none => navLoop caps ty tm (attempts + 1) fuel
    | some (cy, cm) =>
      if cy < ty ∨ (cy = ty ∧ cm < tm) then navLoop caps ty tm (attempts + 1) fuel
      else if ty < cy ∨ (cy = ty ∧ tm < cm) then navLoop caps ty tm (attempts + 1) fuel
      else Except.ok ()

/-- Navigation entry point: `attempts = 0`, `max_attempts = 24`. -/
def navigate_to_target_date (caps : Nat → Option (Nat × Nat)) (ty tm : Nat) :
    Except String Unit :=
  navLoop caps ty tm 0 24

lemma navLoop_ok_or_error (caps : Nat → Option (Nat × Nat)) (ty tm : Nat) :
    ∀ (fuel attempts : Nat),
      navLoop caps ty tm attempts fuel = Except.ok () ∨
      navLoop caps ty tm attempts fuel =
        Except.error "Exceeded maximum attempts to navigate to target date"
  | 0, _ => Or.inr rfl
  | fuel + 1, attempts => by
    simp only [navLoop]
    cases caps attempts with
    | none => exact navLoop_ok_or_error caps ty tm fuel (attempts + 1)
    | some p =>
      obtain ⟨cy, cm⟩ := p
      dsimp only
      split_ifs
      · exact navLoop_ok_or_error caps ty tm fuel (attempts + 1)
      · exact navLoop_ok_or_error caps ty tm fuel (attempts + 1)
      · exact Or.inl rfl

lemma navLoop_ok_iff (caps : Nat → Option (Nat × Nat)) (ty tm : Nat) :
    ∀ (fuel attempts : Nat),
      navLoop caps ty tm attempts fuel = Except.ok () ↔
        ∃ t, attempts ≤ t ∧ t < attempts + fuel ∧ caps t = some (ty, tm)
  | 0, attempts => by
    simp only [navLoop]
    constructor
    · intro h; simp at h
    · rintro ⟨t, h1, h2, _⟩; omega
  | fuel + 1, attempts => by
    simp only [navLoop]
    cases hc : caps attempts with
    | none =>
      dsimp only
      rw [navLoop_ok_iff caps ty tm fuel (attempts + 1)]
      constructor
      · rintro ⟨t, h1, h2, h3⟩; exact ⟨t, by omega, by omega, h3⟩
      · rintro ⟨t, h1, h2, h3⟩
        refine ⟨t, ?_, by omega, h3⟩
        rcases Nat.eq_or_lt_of_le h1 with rfl | h
        · rw [hc] at h3; cases h3
        · omega
    | some p =>
      obtain ⟨cy, cm⟩ := p
      dsimp only
      split_ifs with hlt hgt
      · rw [navLoop_ok_iff caps ty tm fuel (attempts + 1)]
        constructor
        · rintro ⟨t, h1, h2, h3⟩; exact ⟨t, by omega, by omega, h3⟩
        · rintro ⟨t, h1, h2, h3⟩
          refine ⟨t, ?_, by omega, h3⟩
          rcases Nat.eq_or_lt_of_le h1 with rfl | h
          · rw [hc] at h3
            have hp : cy = ty ∧ cm = tm := by
              have := Option.some.inj h3
              exact ⟨congrArg Prod.fst this, congrArg Prod.snd this⟩
            rcases hlt with h | ⟨_, h⟩ <;> omega
          · omega
      · rw [navLoop_ok_iff caps ty tm fuel (attempts + 1)]
        constructor
        · rintro ⟨t, h1, h2, h3⟩; exact ⟨t, by omega, by omega, h3⟩
        · rintro ⟨t, h1, h2, h3⟩
          refine ⟨t, ?_, by omega, h3⟩
          rcases Nat.eq_or_lt_of_le h1 with rfl | h
          · rw [hc] at h3
            have hp : cy = ty ∧ cm = tm := by
              have := Option.some.inj h3
              exact ⟨congrArg Prod.fst this, congrArg Prod.snd this⟩
            rcases hgt with h | ⟨_, h⟩ <;> omega
          · omega
      · constructor
        · intro _
          have h1 : ¬ cy < ty := fun h => hlt (Or.inl h)
          have h2 : ¬ ty < cy := fun h => hgt (Or.inl h)
          have hy : cy = ty := by omega
          have h3 : ¬ cm < tm := fun h => hlt (Or.inr ⟨hy, h⟩)
          have h4 : ¬ tm < cm := fun h => hgt (Or.inr ⟨hy, h⟩)
          have hm : cm = tm := by omega
          exact ⟨attempts, Nat.le_refl _, by omega, by rw [hc, hy, hm]⟩
        · intro _; rfl

/-- C8: the month/year navigation loop performs at most 24 click-and-re-read
attempts — it succeeds exactly when some attempt `t < 24` shows the target
month/year — and when the target is not reached within 24 attempts it raises
the `ValueError` "Exceeded maximum attempts to navigate to target date"
rather than proceeding with whatever month is showing. -/
theorem navigate_bounded_24 (caps : Nat → Option (Nat × Nat)) (ty tm : Nat) :
    (navigate_to_target_date caps ty tm = Except.ok () ↔
      ∃ t < 24, caps t = some (ty, tm))
    ∧ ((∀ t < 24, caps t ≠ some (ty, tm)) →
      navigate_to_target_date caps ty tm =
        Except.error "Exceeded maximum attempts to navigate to target date") := by
  have hiff := navLoop_ok_iff caps ty tm 24 0
  constructor
  · rw [navigate_to_target_date, hiff]
    constructor
    · rintro ⟨t, h1, h2, h3⟩; exact ⟨t, by omega, h3⟩
    · rintro ⟨t, ht, h3⟩; exact ⟨t, by omega, by omega, h3⟩
  · intro hall
    rcases navLoop_ok_or_error caps ty tm 24 0 with h | h
    · rw [hiff] at h
      obtain ⟨t, h1, h2, h3⟩ := h
      exact absurd h3 (hall t (by omega))
    · exact h

/-- Witness for C8: a picker that always shows July 2023 reaches the target
July 2023 (at attempt 0). -/
theorem navigate_bounded_24_witness :
    navigate_to_target_date (fun _ => some (2023, 7)) 2023 7 = Except.ok () :=
  (navigate_bounded_24 (fun _ => some (2023, 7)) 2023 7).1.mpr ⟨0, by omega, rfl⟩

/-- A UI action attempted by the date-setting protocol: opening a field's
popup calendar, or reading a field's value back. -/
inductive UIAct where
  | openCal (field : String)
  | readVal (field : String)
deriving DecidableEq, Repr

/-- The browser state one `_set_date_in_calendar` invocation observes:
the caption read on each navigation attempt, the visible day-cell labels
after navigation, and the field value read back after clicking a day. -/
structure CalWorld where
  caps : Nat → Option (Nat × Nat)
  dayCells : List String
  valAfter : String → String

/-- `_set_date_in_calendar` (scrap_data.py lines 389-512): `strptime` runs
first, so an unparsable date aborts before any UI interaction; then the field
is clicked to open the picker (recorded as `openCal`), the month/year
navigation runs (its `ValueError` is caught by the outer handler, returning
false), the first day cell whose stripped label equals `str(target_date.day)`
is clicked, and the field value is read back (recorded as `readVal`) and
compared against `target_date.strftime("%Y-%m-%d")` — a mismatch returns
false, never a silent accept.  (The `DatePickerHandler` variant, unnamed file
lines 516-558, compares against the raw input string instead.) -/
def set_date_in_calendar (w : CalWorld) (date_str field_id : String) :
    Bool × List UIAct :=
  match parseDateYMD date_str with
  | none => (false, [])
  | some (y, m, d) =>
    match navigate_to_target_date w.caps y m with
    | Except.error _ => (false, [UIAct.openCal field_id])
    | Except.ok _ =>
      match w.dayCells.find? (fun cell => stripStr cell == toString d) with
      | none => (false, [UIAct.openCal field_id])
      | some _ =>
        (w.valAfter field_id == formatYMD y m d,
          [UIAct.openCal field_id, UIAct.readVal field_id])

/-- C9: when `_set_date_in_calendar(d, fieldId)` returns true for a valid ISO
(canonical `%Y-%m-%d`) date string `d`, the field value read back equals
exactly `d`; a read-back mismatch yields false (the contrapositive), never a
silent accept. -/
theorem set_date_roundtrip (w : CalWorld) (date_str field_id : String)
    (y m d : Nat)
    (hp : parseDateYMD date_str = some (y, m, d))
    (hcanon : formatYMD y m d = date_str)
    (hok : (set_date_in_calendar w date_str field_id).1 = true) :
    w.valAfter field_id = date_str := by
  simp only [set_date_in_calendar, hp] at hok
  cases hnav : navigate_to_target_date w.caps y m with
  | error e => rw [hnav] at hok; simp at hok
  | ok u =>
    rw [hnav] at hok
    cases hfind : w.dayCells.find? (fun cell => stripStr cell == toString d) with
    | none => rw [hfind] at hok; simp at hok
    | some c =>
      rw [hfind] at hok
      dsimp only at hok
      rw [← hcanon]
      exact beq_iff_eq.mp hok

/-- Witness for C9: a picker already showing July 2023 with a visible day 15
and a field reading back "2023-07-15" after the click. -/
theorem set_date_roundtrip_witness :
    (CalWorld.mk (fun _ => some (2023, 7)) ["15"] (fun _ => "2023-07-15")).valAfter
        "dateStartSearch" = "2023-07-15" :=
  set_date_roundtrip
    (CalWorld.mk (fun _ => some (2023, 7)) ["15"] (fun _ => "2023-07-15"))
    "2023-07-15" "dateStartSearch" 2023 7 15 (by decide) (by decide) (by decide)

/-- The browser state a `_set_dates` run observes: one `CalWorld` per
`_set_date_in_calendar` invocation (numbered across the whole run), and the
two field values read during the combined verification of each attempt. -/
structure DatesWorld where
  cal : Nat → CalWorld
  readStart : Nat → String
  readEnd : Nat → String

/-- `_retry_set_date_in_calendar` (scrap_data.py lines 525-532): up to
`max_retries` full re-runs of `_set_date_in_calendar`, threading the
invocation counter `k`; returns on the first success.  Result: (success,
next invocation counter, attempted UI actions). -/
def retry_set_date (w : DatesWorld) (date_str field_id : String) :
    Nat → Nat → Bool × Nat × List UIAct
  | 0, k => (false, k, [])
  | n + 1, k =>
    let r := set_date_in_calendar (w.cal k) date_str field_id
    if r.1 then (true, k + 1, r.2)
    else
      let next := retry_set_date w date_str field_id n (k + 1)
      (next.1, next.2.1, r.2 ++ next.2.2)

/-- The attempt loop of `_set_dates` (scrap_data.py lines 539-580): set the
start date (failure returns false immediately), set the end date (likewise),
then read both fields back and compare against the canonical `%Y-%m-%d`
strings; a verification mismatch consumes the attempt. -/
def set_dates_loop (w : DatesWorld) (sd ed es ee : String) :
    Nat → Nat → Bool × List UIAct
  | 0, _ => (false, [])
  | n + 1, k =>
    let r1 := retry_set_date w sd "dateStartSearch" 3 k
    if !r1.1 then (false, r1.2.2)
    else
      let r2 := retry_set_date w ed "dateEndSearch" 3 r1.2.1
      if !r2.1 then (false, r1.2.2 ++ r2.2.2)
      else
        let acts := r1.2.2 ++ r2.2.2 ++
          [UIAct.readVal "dateStartSearch", UIAct.readVal "dateEndSearch"]
        if w.readStart n == es && w.readEnd n == ee then (true, acts)
        else
          let next := set_dates_loop w sd ed es ee n r2.2.1
          (next.1, acts ++ next.2)

/-- `_set_dates` (scrap_data.py lines 534-580): `_validate_dates` runs first
— an invalid format or an end date earlier than the start returns false
before any calendar interaction (empty action trace, no retry); otherwise up
to 3 attempts of the set-start / set-end / verify sequence. -/
def set_dates (w : DatesWorld) (start_date end_date : String) : Bool × List UIAct :=
  if !(validate_dates start_date end_date) then (false, [])
  else
    match parseDateYMD start_date, parseDateYMD end_date with
    | some (y1, m1, d1), some (y2, m2, d2) =>
      set_dates_loop w start_date end_date (formatYMD y1 m1 d1) (formatYMD y2 m2 d2) 3 0
    | _, _ => (false, [])

/-- C7: for every (start, end) pair where either string fails to parse as a
`%Y-%m-%d` calendar date or the end date parses earlier than the start,
`_set_dates` returns failure before any UI interaction is attempted — the
action trace is empty, so neither calendar popup is opened — and without
retrying. -/
theorem set_dates_fail_fast (w : DatesWorld) (start_date end_date : String)
    (h : parseDateYMD start_date = none ∨ parseDateYMD end_date = none ∨
      ∃ ds de, parseDateYMD start_date = some ds ∧ parseDateYMD end_date = some de ∧
        dateLt de ds = true) :
    set_dates w start_date end_date = (false, []) := by
  have hv : validate_dates start_date end_date = false := by
    rcases h with h | h | ⟨ds, de, h1, h2, h3⟩
    · simp [validate_dates, h]
    · rcases hps : parseDateYMD start_date with _ | ds <;> simp [validate_dates, hps, h]
    · simp [validate_dates, h1, h2, h3]
  simp [set_dates, hv]

/-- Witness for C7 at the spec's own example: the inverted range
("2023-06-01", "2023-01-01") fails with no calendar opened. -/
theorem set_dates_fail_fast_witness :
    set_dates
        (DatesWorld.mk (fun _ => CalWorld.mk (fun _ => none) [] (fun _ => ""))
          (fun _ => "") (fun _ => ""))
        "2023-06-01" "2023-01-01" = (false, []) :=
  set_dates_fail_fast _ "2023-06-01" "2023-01-01"
    (Or.inr (Or.inr ⟨(2023, 6, 1), (2023, 1, 1), by decide, by decide, by decide⟩))
